import Mathlib

/-!
# Operator / observer mode adaptor (`internal_api::Operator`)

A shallow embedding of `autoware_iv_internal_api_adaptor/src/operator.cpp`.

* The node's three cached status messages are the fields of `Operator`.
* Every callback is a function from the node state to a `Run`: the value it
  produced, the node state afterwards and the list of externally visible effects
  (publishes, service calls, error logs) in the order they were issued.
* The enum labels of the message packages (`OperatorMsg::DRIVER`,
  `GateMode::AUTO`, ...) are declared outside this source file; they are taken as
  the parameter `MsgConstants`.  A C++ `switch` is embedded as a chain of
  equality tests in the order of its `case` labels; C++ rejects a `switch` with
  two equal labels, which is the hypothesis `SwitchLabelsDistinct`.
* `uint8` fields are natural numbers; the code does no arithmetic on them.
* The time stamp of the engage message (`now()`) is not modelled.
-/

namespace internal_api

/-! ## Messages -/

/-- The enum labels used by `operator.cpp`, declared in the message packages. -/
structure MsgConstants where
  /-- `tier4_external_api_msgs::msg::Operator::DRIVER` -/
  Operator_DRIVER : Nat
  /-- `tier4_external_api_msgs::msg::Operator::AUTONOMOUS` -/
  Operator_AUTONOMOUS : Nat
  /-- `tier4_external_api_msgs::msg::Operator::OBSERVER` -/
  Operator_OBSERVER : Nat
  /-- `tier4_external_api_msgs::msg::Observer::LOCAL` -/
  Observer_LOCAL : Nat
  /-- `tier4_external_api_msgs::msg::Observer::REMOTE` -/
  Observer_REMOTE : Nat
  /-- `tier4_control_msgs::msg::GateMode::AUTO` -/
  GateMode_AUTO : Nat
  /-- `tier4_control_msgs::msg::GateMode::EXTERNAL` -/
  GateMode_EXTERNAL : Nat
  /-- `autoware_auto_vehicle_msgs::msg::ControlModeReport::MANUAL` -/
  ControlModeReport_MANUAL : Nat
  /-- `tier4_control_msgs::msg::ExternalCommandSelectorMode::LOCAL` -/
  ExternalCommandSelectorMode_LOCAL : Nat
  /-- `tier4_control_msgs::msg::ExternalCommandSelectorMode::REMOTE` -/
  ExternalCommandSelectorMode_REMOTE : Nat
  /-- `OperationMode::MANUAL_DIRECT` -/
  OperationMode_MANUAL_DIRECT : Nat
  /-- `OperationMode::AUTONOMOUS` -/
  OperationMode_AUTONOMOUS : Nat
  /-- `OperationMode::REMOTE_OPERATOR` -/
  OperationMode_REMOTE_OPERATOR : Nat

/-- The `case` labels of each `switch` in the file are pairwise distinct
(otherwise the translation unit does not compile). -/
def SwitchLabelsDistinct (k : MsgConstants) : Prop :=
  k.Operator_DRIVER ≠ k.Operator_AUTONOMOUS ∧
  k.Operator_DRIVER ≠ k.Operator_OBSERVER ∧
  k.Operator_AUTONOMOUS ≠ k.Operator_OBSERVER ∧
  k.Observer_LOCAL ≠ k.Observer_REMOTE ∧
  k.GateMode_AUTO ≠ k.GateMode_EXTERNAL ∧
  k.ExternalCommandSelectorMode_LOCAL ≠ k.ExternalCommandSelectorMode_REMOTE

instance (k : MsgConstants) : Decidable (SwitchLabelsDistinct k) := by
  unfold SwitchLabelsDistinct; infer_instance

/-- A concrete assignment of labels with which the theorems are instantiated. -/
def sampleConstants : MsgConstants where
  Operator_DRIVER := 1
  Operator_AUTONOMOUS := 2
  Operator_OBSERVER := 3
  Observer_LOCAL := 1
  Observer_REMOTE := 2
  GateMode_AUTO := 0
  GateMode_EXTERNAL := 1
  ControlModeReport_MANUAL := 4
  ExternalCommandSelectorMode_LOCAL := 1
  ExternalCommandSelectorMode_REMOTE := 2
  OperationMode_MANUAL_DIRECT := 5
  OperationMode_AUTONOMOUS := 2
  OperationMode_REMOTE_OPERATOR := 4

/-- The `tier4_control_msgs::msg::GateMode` message (the field read here). -/
structure GateMode where
  data : Nat
  deriving DecidableEq, Repr

/-- The `tier4_control_msgs::msg::ExternalCommandSelectorMode` message. -/
structure ExternalCommandSelectorMode where
  data : Nat
  deriving DecidableEq, Repr

/-- The `autoware_auto_vehicle_msgs::msg::ControlModeReport` message
(the field read here). -/
structure ControlModeReport where
  mode : Nat
  deriving DecidableEq, Repr

/-- Modelled from the spec: the `ResponseStatus` message, declared outside this
source file; the spec gives it as a success flag and a message string. -/
structure ResponseStatus where
  success : Bool
  message : String
  deriving DecidableEq, Repr

/-- Modelled from the spec: `tier4_api_utils::response_success`, the success
status carrying the given message. -/
def response_success (message : String) : ResponseStatus :=
  ⟨true, message⟩

/-- Modelled from the spec: `tier4_api_utils::response_error`, the error status
carrying the given message. -/
def response_error (message : String) : ResponseStatus :=
  ⟨false, message⟩

/-- Modelled from the spec: `tier4_api_utils::is_success`, whether a status is
a success. -/
def is_success (status : ResponseStatus) : Bool :=
  status.success

/-- The response body of the two internal services (`success`, `message`). -/
structure ServiceResponse where
  success : Bool
  message : String
  deriving DecidableEq, Repr

/-- What `client->call(req)` hands back: the pair `[status, resp]`, where `resp`
is a pointer that may be null. -/
structure CallResult where
  status : ResponseStatus
  resp : Option ServiceResponse
  deriving DecidableEq, Repr

/-- An internal service as the node sees it: the request value decides the
pair that `call` returns. -/
abbrev ServiceClient := Nat → CallResult

/-! ## Effects and node state -/

/-- The externally visible actions of the node. -/
inductive Effect where
  /-- `pub_gate_mode_->publish` with the given `data` -/
  | gateModePublish (data : Nat)
  /-- `pub_vehicle_engage_->publish` with the given `engage` flag -/
  | engagePublish (engage : Bool)
  /-- `cli_operation_mode_->call` with the given `mode.mode` -/
  | operationModeRequest (mode : Nat)
  /-- `cli_external_select_->call` with the given `mode.data` -/
  | externalSelectCall (data : Nat)
  /-- `pub_operator_->publish` with the given `mode` -/
  | operatorPublish (mode : Nat)
  /-- `pub_observer_->publish` with the given `mode` -/
  | observerPublish (mode : Nat)
  /-- `RCLCPP_ERROR` with the given text -/
  | logError (text : String)
  deriving DecidableEq, Repr

/-- A downstream command: a gate-mode or engage publish, or a service call. -/
def Effect.isCommand : Effect → Bool
  | .gateModePublish _ => true
  | .engagePublish _ => true
  | .operationModeRequest _ => true
  | .externalSelectCall _ => true
  | _ => false

/-- A request/response call to an internal service. -/
def Effect.isCall : Effect → Bool
  | .operationModeRequest _ => true
  | .externalSelectCall _ => true
  | _ => false

/-- A publish on `/api/autoware/get/operator`. -/
def Effect.isOperatorPublish : Effect → Bool
  | .operatorPublish _ => true
  | _ => false

/-- A publish on `/api/autoware/get/observer`. -/
def Effect.isObserverPublish : Effect → Bool
  | .observerPublish _ => true
  | _ => false

/-- The member variables of the node that hold the last received messages;
a null pointer is `none`. -/
structure Operator where
  external_select_ : Option ExternalCommandSelectorMode
  gate_mode_ : Option GateMode
  vehicle_control_mode_ : Option ControlModeReport
  deriving DecidableEq, Repr

/-- The node right after construction: no message received yet. -/
def Operator.init : Operator :=
  ⟨none, none, none⟩

/-- The result of running a piece of the node's code: `value` is `none` when
the code dereferenced a null pointer and did not return. -/
structure Run (α : Type) where
  value : Option α
  node : Operator
  effects : List Effect

/-- Code of the node: a function of the node state. -/
def Exec (α : Type) : Type := Operator → Run α

/-- Sequencing: the second piece runs on the state left by the first, and its
effects follow the first's; nothing runs after a null dereference. -/
def Exec.bind {α β : Type} (a : Exec α) (f : α → Exec β) : Exec β := fun node =>
  let r := a node
  match r.value with
  | none => ⟨none, r.node, r.effects⟩
  | some v =>
    let s := f v r.node
    ⟨s.value, s.node, r.effects ++ s.effects⟩

instance : Monad Exec where
  pure v := fun node => ⟨some v, node, []⟩
  bind := Exec.bind

/-- Issue one effect. -/
def emit (e : Effect) : Exec Unit := fun node => ⟨some (), node, [e]⟩

/-- Read the node state. -/
def getNode : Exec Operator := fun node => ⟨some node, node, []⟩

/-- Replace the node state. -/
def setNode (n : Operator) : Exec Unit := fun _ => ⟨some (), n, []⟩

/-- Dereference of a null pointer: the code does not return. -/
def nullDeref {α : Type} : Exec α := fun node => ⟨none, node, []⟩

/-! ## Command issuers -/

/-- `Operator::setVehicleEngage` -/
def setVehicleEngage (engage : Bool) : Exec Unit :=
  emit (.engagePublish engage)

/-- `Operator::setGateMode` -/
def setGateMode (data : Nat) : Exec Unit :=
  emit (.gateModePublish data)

/-- `Operator::setVehicleOperationMode` -/
def setVehicleOperationMode (cli_operation_mode_ : ServiceClient) (mode : Nat) :
    Exec ResponseStatus := do
  emit (.operationModeRequest mode)
  let r := cli_operation_mode_ mode
  if !is_success r.status then
    return r.status
  else
    match r.resp with
    | none => nullDeref
    | some resp =>
      if resp.success then
        return response_success "set OperationMode succeeded"
      else
        return response_error "set OperationMode failed."

/-- `Operator::setExternalSelect` -/
def setExternalSelect (cli_external_select_ : ServiceClient) (data : Nat) :
    Exec ResponseStatus := do
  emit (.externalSelectCall data)
  let r := cli_external_select_ data
  if !is_success r.status then
    return r.status
  else
    match r.resp with
    | none => nullDeref
    | some resp =>
      if resp.success then
        return response_success resp.message
      else
        return response_error resp.message

/-! ## Request handlers -/

/-- `Operator::setOperator`: the value is `response->status`. -/
def setOperator (k : MsgConstants) (cli_operation_mode_ : ServiceClient)
    (request_mode : Nat) : Exec ResponseStatus := do
  if request_mode = k.Operator_DRIVER then
    setVehicleEngage false
    setVehicleOperationMode cli_operation_mode_ k.OperationMode_MANUAL_DIRECT
  else if request_mode = k.Operator_AUTONOMOUS then
    setGateMode k.GateMode_AUTO
    setVehicleEngage true
    setVehicleOperationMode cli_operation_mode_ k.OperationMode_AUTONOMOUS
  else if request_mode = k.Operator_OBSERVER then
    setGateMode k.GateMode_EXTERNAL
    setVehicleEngage true
    setVehicleOperationMode cli_operation_mode_ k.OperationMode_REMOTE_OPERATOR
  else
    return response_error "Invalid parameter."

/-- `Operator::setObserver`: the value is `response->status`. -/
def setObserver (k : MsgConstants) (cli_external_select_ : ServiceClient)
    (request_mode : Nat) : Exec ResponseStatus := do
  if request_mode = k.Observer_LOCAL then
    setExternalSelect cli_external_select_ k.ExternalCommandSelectorMode_LOCAL
  else if request_mode = k.Observer_REMOTE then
    setExternalSelect cli_external_select_ k.ExternalCommandSelectorMode_REMOTE
  else
    return response_error "Invalid parameter."

/-! ## Status listeners -/

/-- `Operator::onExternalSelect` -/
def onExternalSelect (message : ExternalCommandSelectorMode) : Exec Unit := do
  let node ← getNode
  setNode { node with external_select_ := some message }

/-- `Operator::onGateMode` -/
def onGateMode (message : GateMode) : Exec Unit := do
  let node ← getNode
  setNode { node with gate_mode_ := some message }

/-- `Operator::onVehicleControlMode` -/
def onVehicleControlMode (message : ControlModeReport) : Exec Unit := do
  let node ← getNode
  setNode { node with vehicle_control_mode_ := some message }

/-! ## Timer -/

/-- `Operator::publishOperator` -/
def publishOperator (k : MsgConstants) : Exec Unit := do
  let node ← getNode
  match node.vehicle_control_mode_, node.gate_mode_ with
  | some vehicle_control_mode, some gate_mode =>
    if vehicle_control_mode.mode = k.ControlModeReport_MANUAL then
      emit (.operatorPublish k.Operator_DRIVER)
    else if gate_mode.data = k.GateMode_AUTO then
      emit (.operatorPublish k.Operator_AUTONOMOUS)
    else if gate_mode.data = k.GateMode_EXTERNAL then
      emit (.operatorPublish k.Operator_OBSERVER)
    else
      emit (.logError "Unknown operator.")
  | _, _ => return

/-- `Operator::publishObserver` -/
def publishObserver (k : MsgConstants) : Exec Unit := do
  let node ← getNode
  match node.external_select_ with
  | none => return
  | some external_select =>
    if external_select.data = k.ExternalCommandSelectorMode_LOCAL then
      emit (.observerPublish k.Observer_LOCAL)
    else if external_select.data = k.ExternalCommandSelectorMode_REMOTE then
      emit (.observerPublish k.Observer_REMOTE)
    else
      emit (.logError "Unknown observer.")

/-- `Operator::onTimer` -/
def onTimer (k : MsgConstants) : Exec Unit := do
  publishOperator k
  publishObserver k

/-! ## Event loop -/

/-- What the executor can hand to the node: a message on one of the three
subscriptions, a timer expiry, or a request on one of the two services (together
with the behaviour of the internal service while that request is handled). -/
inductive Event where
  | externalSelect (message : ExternalCommandSelectorMode)
  | gateMode (message : GateMode)
  | vehicleControlMode (message : ControlModeReport)
  | timer
  | setOperatorRequest (request_mode : Nat) (cli_operation_mode_ : ServiceClient)
  | setObserverRequest (request_mode : Nat) (cli_external_select_ : ServiceClient)

/-- The callback bound to each event source in the constructor. -/
def dispatch (k : MsgConstants) : Event → Exec Unit
  | .externalSelect message => onExternalSelect message
  | .gateMode message => onGateMode message
  | .vehicleControlMode message => onVehicleControlMode message
  | .timer => onTimer k
  | .setOperatorRequest request_mode cli => do
    let _ ← setOperator k cli request_mode
    return
  | .setObserverRequest request_mode cli => do
    let _ ← setObserver k cli request_mode
    return

/-- The callbacks run one at a time, in the order the events arrive. -/
def spin (k : MsgConstants) : List Event → Exec Unit
  | [] => pure ()
  | e :: es => do
    dispatch k e
    spin k es

/-- Whether the event is a message on `/vehicle/status/control_mode`. -/
def Event.isVehicleControlMode : Event → Bool
  | .vehicleControlMode _ => true
  | _ => false

/-- Whether the event is a message on `/control/current_gate_mode`. -/
def Event.isGateMode : Event → Bool
  | .gateMode _ => true
  | _ => false

/-- Whether the event is a message on the selector-mode topic. -/
def Event.isExternalSelect : Event → Bool
  | .externalSelect _ => true
  | _ => false

/-- The message that the event delivers on the selector-mode topic, if any. -/
def Event.externalSelectMessage : Event → Option ExternalCommandSelectorMode
  | .externalSelect message => some message
  | _ => none

/-- The message that the event delivers on `/control/current_gate_mode`, if any. -/
def Event.gateModeMessage : Event → Option GateMode
  | .gateMode message => some message
  | _ => none

/-- The message that the event delivers on `/vehicle/status/control_mode`, if any. -/
def Event.vehicleControlModeMessage : Event → Option ControlModeReport
  | .vehicleControlMode message => some message
  | _ => none

/-- For each of the three topics, the last message that a sequence of events
delivers on it (`none` when it delivers none). -/
def lastReceived (evs : List Event) : Operator where
  external_select_ := (evs.filterMap Event.externalSelectMessage).getLast?
  gate_mode_ := (evs.filterMap Event.gateModeMessage).getLast?
  vehicle_control_mode_ := (evs.filterMap Event.vehicleControlModeMessage).getLast?

/-! ## Auxiliary facts about the command issuers and handlers -/

theorem setVehicleOperationMode_effects (cli : ServiceClient) (mode : Nat) (node : Operator) :
    (setVehicleOperationMode cli mode node).effects = [Effect.operationModeRequest mode] := by
  simp only [setVehicleOperationMode, bind, Exec.bind, emit, pure, nullDeref]
  cases is_success (cli mode).status <;> cases (cli mode).resp <;> simp [nullDeref]
  all_goals (split <;> simp)

theorem setVehicleOperationMode_node (cli : ServiceClient) (mode : Nat) (node : Operator) :
    (setVehicleOperationMode cli mode node).node = node := by
  simp only [setVehicleOperationMode, bind, Exec.bind, emit, pure, nullDeref]
  cases is_success (cli mode).status <;> cases (cli mode).resp <;> simp [nullDeref]
  all_goals (split <;> simp)

theorem setVehicleOperationMode_value (cli : ServiceClient) (mode : Nat) (node : Operator) :
    (setVehicleOperationMode cli mode node).value =
      if is_success (cli mode).status = false then some (cli mode).status
      else match (cli mode).resp with
        | none => none
        | some resp =>
          if resp.success then some (response_success "set OperationMode succeeded")
          else some (response_error "set OperationMode failed.") := by
  simp only [setVehicleOperationMode, bind, Exec.bind, emit, pure, nullDeref]
  cases is_success (cli mode).status <;> cases (cli mode).resp <;> simp [nullDeref]
  all_goals (split <;> simp)

theorem setExternalSelect_effects (cli : ServiceClient) (data : Nat) (node : Operator) :
    (setExternalSelect cli data node).effects = [Effect.externalSelectCall data] := by
  simp only [setExternalSelect, bind, Exec.bind, emit, pure, nullDeref]
  cases is_success (cli data).status <;> cases (cli data).resp <;> simp [nullDeref]
  all_goals (split <;> simp)

theorem setExternalSelect_node (cli : ServiceClient) (data : Nat) (node : Operator) :
    (setExternalSelect cli data node).node = node := by
  simp only [setExternalSelect, bind, Exec.bind, emit, pure, nullDeref]
  cases is_success (cli data).status <;> cases (cli data).resp <;> simp [nullDeref]
  all_goals (split <;> simp)

theorem setExternalSelect_value (cli : ServiceClient) (data : Nat) (node : Operator) :
    (setExternalSelect cli data node).value =
      if is_success (cli data).status = false then some (cli data).status
      else match (cli data).resp with
        | none => none
        | some resp =>
          if resp.success then some (response_success resp.message)
          else some (response_error resp.message) := by
  simp only [setExternalSelect, bind, Exec.bind, emit, pure, nullDeref]
  cases is_success (cli data).status <;> cases (cli data).resp <;> simp [nullDeref]
  all_goals (split <;> simp)

/-- The three results of `setOperator` on the DRIVER branch. -/
theorem setOperator_driver (k : MsgConstants) (cli : ServiceClient) (node : Operator) :
    setOperator k cli k.Operator_DRIVER node =
      ⟨(setVehicleOperationMode cli k.OperationMode_MANUAL_DIRECT node).value, node,
        [Effect.engagePublish false,
         Effect.operationModeRequest k.OperationMode_MANUAL_DIRECT]⟩ := by
  have h1 := setVehicleOperationMode_effects cli k.OperationMode_MANUAL_DIRECT node
  have h2 := setVehicleOperationMode_node cli k.OperationMode_MANUAL_DIRECT node
  simp [setOperator, bind, Exec.bind, setVehicleEngage, emit, h1, h2]

/-- The three results of `setOperator` on the AUTONOMOUS branch. -/
theorem setOperator_autonomous (k : MsgConstants)
    (hne : k.Operator_AUTONOMOUS ≠ k.Operator_DRIVER)
    (cli : ServiceClient) (node : Operator) :
    setOperator k cli k.Operator_AUTONOMOUS node =
      ⟨(setVehicleOperationMode cli k.OperationMode_AUTONOMOUS node).value, node,
        [Effect.gateModePublish k.GateMode_AUTO, Effect.engagePublish true,
         Effect.operationModeRequest k.OperationMode_AUTONOMOUS]⟩ := by
  have h1 := setVehicleOperationMode_effects cli k.OperationMode_AUTONOMOUS node
  have h2 := setVehicleOperationMode_node cli k.OperationMode_AUTONOMOUS node
  simp [setOperator, bind, Exec.bind, setVehicleEngage, setGateMode, emit, h1, h2, hne]

/-- The three results of `setOperator` on the OBSERVER branch. -/
theorem setOperator_observer (k : MsgConstants)
    (hne1 : k.Operator_OBSERVER ≠ k.Operator_DRIVER)
    (hne2 : k.Operator_OBSERVER ≠ k.Operator_AUTONOMOUS)
    (cli : ServiceClient) (node : Operator) :
    setOperator k cli k.Operator_OBSERVER node =
      ⟨(setVehicleOperationMode cli k.OperationMode_REMOTE_OPERATOR node).value, node,
        [Effect.gateModePublish k.GateMode_EXTERNAL, Effect.engagePublish true,
         Effect.operationModeRequest k.OperationMode_REMOTE_OPERATOR]⟩ := by
  have h1 := setVehicleOperationMode_effects cli k.OperationMode_REMOTE_OPERATOR node
  have h2 := setVehicleOperationMode_node cli k.OperationMode_REMOTE_OPERATOR node
  simp [setOperator, bind, Exec.bind, setVehicleEngage, setGateMode, emit, h1, h2, hne1, hne2]

/-- The results of `setOperator` on the `default` branch. -/
theorem setOperator_default (k : MsgConstants) (cli : ServiceClient) (request_mode : Nat)
    (node : Operator) (h1 : request_mode ≠ k.Operator_DRIVER)
    (h2 : request_mode ≠ k.Operator_AUTONOMOUS) (h3 : request_mode ≠ k.Operator_OBSERVER) :
    setOperator k cli request_mode node =
      ⟨some (response_error "Invalid parameter."), node, []⟩ := by
  simp [setOperator, pure, h1, h2, h3]

/-- The three results of `setObserver` on the LOCAL branch. -/
theorem setObserver_local (k : MsgConstants) (cli : ServiceClient) (node : Operator) :
    setObserver k cli k.Observer_LOCAL node =
      ⟨(setExternalSelect cli k.ExternalCommandSelectorMode_LOCAL node).value, node,
        [Effect.externalSelectCall k.ExternalCommandSelectorMode_LOCAL]⟩ := by
  have h1 := setExternalSelect_effects cli k.ExternalCommandSelectorMode_LOCAL node
  have h2 := setExternalSelect_node cli k.ExternalCommandSelectorMode_LOCAL node
  simp only [setObserver, if_true]
  rw [← h1]; nth_rewrite 3 [← h2]; rfl

/-- The three results of `setObserver` on the REMOTE branch. -/
theorem setObserver_remote (k : MsgConstants)
    (hne : k.Observer_REMOTE ≠ k.Observer_LOCAL)
    (cli : ServiceClient) (node : Operator) :
    setObserver k cli k.Observer_REMOTE node =
      ⟨(setExternalSelect cli k.ExternalCommandSelectorMode_REMOTE node).value, node,
        [Effect.externalSelectCall k.ExternalCommandSelectorMode_REMOTE]⟩ := by
  have h1 := setExternalSelect_effects cli k.ExternalCommandSelectorMode_REMOTE node
  have h2 := setExternalSelect_node cli k.ExternalCommandSelectorMode_REMOTE node
  simp only [setObserver, if_true, if_neg hne]
  rw [← h1]; nth_rewrite 3 [← h2]; rfl

/-- The results of `setObserver` on the `default` branch. -/
theorem setObserver_default (k : MsgConstants) (cli : ServiceClient) (request_mode : Nat)
    (node : Operator) (h1 : request_mode ≠ k.Observer_LOCAL)
    (h2 : request_mode ≠ k.Observer_REMOTE) :
    setObserver k cli request_mode node =
      ⟨some (response_error "Invalid parameter."), node, []⟩ := by
  simp [setObserver, pure, h1, h2]

/-- For every request mode, `setOperator` leaves the node state as it was. -/
theorem setOperator_node (k : MsgConstants) (cli : ServiceClient) (request_mode : Nat)
    (node : Operator) : (setOperator k cli request_mode node).node = node := by
  by_cases h1 : request_mode = k.Operator_DRIVER
  · subst h1; rw [setOperator_driver]
  · by_cases h2 : request_mode = k.Operator_AUTONOMOUS
    · subst h2; rw [setOperator_autonomous k h1]
    · by_cases h3 : request_mode = k.Operator_OBSERVER
      · subst h3; rw [setOperator_observer k h1 h2]
      · rw [setOperator_default k cli request_mode node h1 h2 h3]

/-- For every request mode, `setOperator` issues downstream commands only. -/
theorem setOperator_effects_isCommand (k : MsgConstants) (cli : ServiceClient)
    (request_mode : Nat) (node : Operator) :
    ∀ x ∈ (setOperator k cli request_mode node).effects, x.isCommand = true := by
  by_cases h1 : request_mode = k.Operator_DRIVER
  · subst h1; rw [setOperator_driver]; simp [Effect.isCommand]
  · by_cases h2 : request_mode = k.Operator_AUTONOMOUS
    · subst h2; rw [setOperator_autonomous k h1]; simp [Effect.isCommand]
    · by_cases h3 : request_mode = k.Operator_OBSERVER
      · subst h3; rw [setOperator_observer k h1 h2]; simp [Effect.isCommand]
      · rw [setOperator_default k cli request_mode node h1 h2 h3]; simp

/-- For every request mode, `setObserver` leaves the node state as it was. -/
theorem setObserver_node (k : MsgConstants) (cli : ServiceClient) (request_mode : Nat)
    (node : Operator) : (setObserver k cli request_mode node).node = node := by
  by_cases h1 : request_mode = k.Observer_LOCAL
  · subst h1; rw [setObserver_local]
  · by_cases h2 : request_mode = k.Observer_REMOTE
    · subst h2; rw [setObserver_remote k h1]
    · rw [setObserver_default k cli request_mode node h1 h2]

/-- For every request mode, `setObserver` issues downstream commands only. -/
theorem setObserver_effects_isCommand (k : MsgConstants) (cli : ServiceClient)
    (request_mode : Nat) (node : Operator) :
    ∀ x ∈ (setObserver k cli request_mode node).effects, x.isCommand = true := by
  by_cases h1 : request_mode = k.Observer_LOCAL
  · subst h1; rw [setObserver_local]; simp [Effect.isCommand]
  · by_cases h2 : request_mode = k.Observer_REMOTE
    · subst h2; rw [setObserver_remote k h1]; simp [Effect.isCommand]
    · rw [setObserver_default k cli request_mode node h1 h2]; simp

/-- What `publishOperator` does, as a function of the two slots it reads. -/
theorem publishOperator_eq (k : MsgConstants) (node : Operator) :
    publishOperator k node = ⟨some (), node,
      match node.vehicle_control_mode_, node.gate_mode_ with
      | some vehicle_control_mode, some gate_mode =>
        if vehicle_control_mode.mode = k.ControlModeReport_MANUAL then
          [Effect.operatorPublish k.Operator_DRIVER]
        else if gate_mode.data = k.GateMode_AUTO then
          [Effect.operatorPublish k.Operator_AUTONOMOUS]
        else if gate_mode.data = k.GateMode_EXTERNAL then
          [Effect.operatorPublish k.Operator_OBSERVER]
        else [Effect.logError "Unknown operator."]
      | _, _ => []⟩ := by
  obtain ⟨es, g, c⟩ := node
  cases g <;> cases c <;>
    simp only [publishOperator, bind, Exec.bind, getNode, List.nil_append, pure, emit]
  split_ifs <;> rfl

/-- What `publishObserver` does, as a function of the slot it reads. -/
theorem publishObserver_eq (k : MsgConstants) (node : Operator) :
    publishObserver k node = ⟨some (), node,
      match node.external_select_ with
      | none => []
      | some external_select =>
        if external_select.data = k.ExternalCommandSelectorMode_LOCAL then
          [Effect.observerPublish k.Observer_LOCAL]
        else if external_select.data = k.ExternalCommandSelectorMode_REMOTE then
          [Effect.observerPublish k.Observer_REMOTE]
        else [Effect.logError "Unknown observer."]⟩ := by
  obtain ⟨es, g, c⟩ := node
  cases es <;>
    simp only [publishObserver, bind, Exec.bind, getNode, List.nil_append, pure, emit]
  split_ifs <;> rfl

/-- A timer expiry runs both publishers on the same, unchanged node state. -/
theorem onTimer_eq (k : MsgConstants) (node : Operator) :
    onTimer k node = ⟨some (), node,
      (publishOperator k node).effects ++ (publishObserver k node).effects⟩ := by
  simp only [onTimer, bind, Exec.bind]
  rw [publishOperator_eq, publishObserver_eq]

/-- An effect of a sequence comes from its first part, or from its second part
run after the first part returned. -/
theorem Exec.mem_bind_effects {α β : Type} (a : Exec α) (f : α → Exec β) (node : Operator)
    (x : Effect) (h : x ∈ (Exec.bind a f node).effects) :
    x ∈ (a node).effects ∨
      ∃ v, (a node).value = some v ∧ x ∈ (f v (a node).node).effects := by
  unfold Exec.bind at h
  cases hv : (a node).value with
  | none => simp [hv] at h; exact Or.inl h
  | some v =>
    simp [hv] at h
    rcases h with h | h
    · exact Or.inl h
    · exact Or.inr ⟨v, rfl, h⟩

/-- Discarding the value of a piece of code changes neither state nor effects. -/
theorem Exec.bind_discard {α : Type} (a : Exec α) (node : Operator) :
    (Exec.bind a (fun _ => (pure PUnit.unit : Exec PUnit)) node).node = (a node).node ∧
    (Exec.bind a (fun _ => (pure PUnit.unit : Exec PUnit)) node).effects
      = (a node).effects := by
  unfold Exec.bind
  cases h : (a node).value <;> simp [h, pure]

/-- A downstream command is not a publish on the operator or observer topic. -/
theorem Effect.isCommand_not_publish (x : Effect) (h : x.isCommand = true) :
    x.isOperatorPublish = false ∧ x.isObserverPublish = false := by
  cases x <;> simp_all [Effect.isCommand, Effect.isOperatorPublish, Effect.isObserverPublish]

/-- The node state after a callback, event by event. -/
theorem dispatch_node (k : MsgConstants) (e : Event) (node : Operator) :
    (dispatch k e node).node =
      match e with
      | .externalSelect message => { node with external_select_ := some message }
      | .gateMode message => { node with gate_mode_ := some message }
      | .vehicleControlMode message => { node with vehicle_control_mode_ := some message }
      | _ => node := by
  cases e with
  | externalSelect message => rfl
  | gateMode message => rfl
  | vehicleControlMode message => rfl
  | timer => simp only [dispatch, onTimer_eq]
  | setOperatorRequest m cli =>
    simp only [dispatch, bind]
    rw [(Exec.bind_discard _ node).1, setOperator_node]
  | setObserverRequest m cli =>
    simp only [dispatch, bind]
    rw [(Exec.bind_discard _ node).1, setObserver_node]

/-- No callback publishes an operator mode while the control-mode slot or the
gate-mode slot is empty. -/
theorem dispatch_no_operatorPublish (k : MsgConstants) (e : Event) (node : Operator)
    (h : node.vehicle_control_mode_ = none ∨ node.gate_mode_ = none) :
    ∀ x ∈ (dispatch k e node).effects, x.isOperatorPublish = false := by
  intro x hx
  cases e with
  | externalSelect message => simp [dispatch, onExternalSelect, bind, Exec.bind, getNode, setNode] at hx
  | gateMode message => simp [dispatch, onGateMode, bind, Exec.bind, getNode, setNode] at hx
  | vehicleControlMode message =>
    simp [dispatch, onVehicleControlMode, bind, Exec.bind, getNode, setNode] at hx
  | timer =>
    obtain ⟨es, g, c⟩ := node
    simp only [dispatch, onTimer_eq, publishOperator_eq, publishObserver_eq] at hx
    rcases h with h | h <;> simp only at h <;> subst h <;> cases es <;> try cases g
    all_goals try cases c
    all_goals simp at hx
    all_goals (split_ifs at hx <;> simp at hx <;> subst hx <;> rfl)
  | setOperatorRequest m cli =>
    simp only [dispatch, bind] at hx
    rw [(Exec.bind_discard _ node).2] at hx
    exact (Effect.isCommand_not_publish x (setOperator_effects_isCommand k cli m node x hx)).1
  | setObserverRequest m cli =>
    simp only [dispatch, bind] at hx
    rw [(Exec.bind_discard _ node).2] at hx
    exact (Effect.isCommand_not_publish x (setObserver_effects_isCommand k cli m node x hx)).1

/-- No callback publishes an observer mode while the selector slot is empty. -/
theorem dispatch_no_observerPublish (k : MsgConstants) (e : Event) (node : Operator)
    (h : node.external_select_ = none) :
    ∀ x ∈ (dispatch k e node).effects, x.isObserverPublish = false := by
  intro x hx
  cases e with
  | externalSelect message => simp [dispatch, onExternalSelect, bind, Exec.bind, getNode, setNode] at hx
  | gateMode message => simp [dispatch, onGateMode, bind, Exec.bind, getNode, setNode] at hx
  | vehicleControlMode message =>
    simp [dispatch, onVehicleControlMode, bind, Exec.bind, getNode, setNode] at hx
  | timer =>
    obtain ⟨es, g, c⟩ := node
    simp only at h
    subst h
    simp only [dispatch, onTimer_eq, publishOperator_eq, publishObserver_eq] at hx
    cases g <;> cases c <;> simp at hx
    split_ifs at hx <;> simp at hx <;> subst hx <;> rfl
  | setOperatorRequest m cli =>
    simp only [dispatch, bind] at hx
    rw [(Exec.bind_discard _ node).2] at hx
    exact (Effect.isCommand_not_publish x (setOperator_effects_isCommand k cli m node x hx)).2
  | setObserverRequest m cli =>
    simp only [dispatch, bind] at hx
    rw [(Exec.bind_discard _ node).2] at hx
    exact (Effect.isCommand_not_publish x (setObserver_effects_isCommand k cli m node x hx)).2

/-- A callback other than the slot's own listener leaves an empty slot empty. -/
theorem dispatch_keeps_empty_slots (k : MsgConstants) (e : Event) (node : Operator) :
    (node.vehicle_control_mode_ = none → e.isVehicleControlMode = false →
      (dispatch k e node).node.vehicle_control_mode_ = none) ∧
    (node.gate_mode_ = none → e.isGateMode = false →
      (dispatch k e node).node.gate_mode_ = none) ∧
    (node.external_select_ = none → e.isExternalSelect = false →
      (dispatch k e node).node.external_select_ = none) := by
  rw [dispatch_node]
  cases e <;>
    simp [Event.isVehicleControlMode, Event.isGateMode, Event.isExternalSelect]

/-- The state after a run is the state after its first callback, when that one
did not return, and otherwise the state after the rest of the run. -/
theorem spin_cons_node (k : MsgConstants) (e : Event) (es : List Event) (node : Operator) :
    (spin k (e :: es) node).node = (dispatch k e node).node ∨
    (spin k (e :: es) node).node = (spin k es (dispatch k e node).node).node := by
  simp only [spin, bind, Exec.bind]
  cases hv : (dispatch k e node).value <;> simp

/-- A slot that is empty stays empty over a run without an update for it. -/
theorem spin_node_slots (k : MsgConstants) (evs : List Event) :
    ∀ node : Operator,
      (node.vehicle_control_mode_ = none → (∀ e ∈ evs, e.isVehicleControlMode = false) →
        (spin k evs node).node.vehicle_control_mode_ = none) ∧
      (node.gate_mode_ = none → (∀ e ∈ evs, e.isGateMode = false) →
        (spin k evs node).node.gate_mode_ = none) ∧
      (node.external_select_ = none → (∀ e ∈ evs, e.isExternalSelect = false) →
        (spin k evs node).node.external_select_ = none) := by
  induction evs with
  | nil => intro node; simp [spin, pure]
  | cons e es ih =>
    intro node
    have hd := dispatch_keeps_empty_slots k e node
    have step := spin_cons_node k e es node
    refine ⟨fun h0 hev => ?_, fun h0 hev => ?_, fun h0 hev => ?_⟩
    · have h1 := hd.1 h0 (hev e (List.mem_cons_self _ _))
      rcases step with step | step <;> rw [step]
      · exact h1
      · exact (ih _).1 h1 (fun e2 h2 => hev e2 (List.mem_cons_of_mem _ h2))
    · have h1 := hd.2.1 h0 (hev e (List.mem_cons_self _ _))
      rcases step with step | step <;> rw [step]
      · exact h1
      · exact (ih _).2.1 h1 (fun e2 h2 => hev e2 (List.mem_cons_of_mem _ h2))
    · have h1 := hd.2.2 h0 (hev e (List.mem_cons_self _ _))
      rcases step with step | step <;> rw [step]
      · exact h1
      · exact (ih _).2.2 h1 (fun e2 h2 => hev e2 (List.mem_cons_of_mem _ h2))

/-- A run publishes no operator mode as long as the control-mode slot, or the
gate-mode slot, starts empty and receives no update. -/
theorem spin_no_operatorPublish (k : MsgConstants) (evs : List Event) :
    ∀ node : Operator,
      ((node.vehicle_control_mode_ = none ∧ ∀ e ∈ evs, e.isVehicleControlMode = false) ∨
       (node.gate_mode_ = none ∧ ∀ e ∈ evs, e.isGateMode = false)) →
      ∀ x ∈ (spin k evs node).effects, x.isOperatorPublish = false := by
  induction evs with
  | nil => intro node _ x hx; simp [spin, pure] at hx
  | cons e es ih =>
    intro node h x hx
    simp only [spin, bind] at hx
    rcases Exec.mem_bind_effects _ _ node x hx with h1 | ⟨_, _, h1⟩
    · refine dispatch_no_operatorPublish k e node ?_ x h1
      rcases h with h | h
      · exact Or.inl h.1
      · exact Or.inr h.1
    · refine ih (dispatch k e node).node ?_ x h1
      have hs := dispatch_keeps_empty_slots k e node
      rcases h with h | h
      · exact Or.inl ⟨hs.1 h.1 (h.2 e (List.mem_cons_self _ _)),
          fun e2 h2 => h.2 e2 (List.mem_cons_of_mem _ h2)⟩
      · exact Or.inr ⟨hs.2.1 h.1 (h.2 e (List.mem_cons_self _ _)),
          fun e2 h2 => h.2 e2 (List.mem_cons_of_mem _ h2)⟩

/-- A run publishes no observer mode as long as the selector slot starts empty
and receives no update. -/
theorem spin_no_observerPublish (k : MsgConstants) (evs : List Event) :
    ∀ node : Operator,
      node.external_select_ = none → (∀ e ∈ evs, e.isExternalSelect = false) →
      ∀ x ∈ (spin k evs node).effects, x.isObserverPublish = false := by
  induction evs with
  | nil => intro node _ _ x hx; simp [spin, pure] at hx
  | cons e es ih =>
    intro node h0 hev x hx
    simp only [spin, bind] at hx
    rcases Exec.mem_bind_effects _ _ node x hx with h1 | ⟨_, _, h1⟩
    · exact dispatch_no_observerPublish k e node h0 x h1
    · refine ih (dispatch k e node).node ?_ (fun e2 h2 => hev e2 (List.mem_cons_of_mem _ h2)) x h1
      exact (dispatch_keeps_empty_slots k e node).2.2 h0 (hev e (List.mem_cons_self _ _))

/-- An operator mode published by `publishOperator` is one of the three labels. -/
theorem publishOperator_modes (k : MsgConstants) (node : Operator) (mode : Nat)
    (h : Effect.operatorPublish mode ∈ (publishOperator k node).effects) :
    mode = k.Operator_DRIVER ∨ mode = k.Operator_AUTONOMOUS ∨ mode = k.Operator_OBSERVER := by
  rw [publishOperator_eq] at h
  obtain ⟨es, g, c⟩ := node
  cases g <;> cases c <;> simp at h
  split_ifs at h <;> simp at h
  · exact Or.inl h
  · exact Or.inr (Or.inl h)
  · exact Or.inr (Or.inr h)

/-- `publishObserver` publishes nothing on the operator topic. -/
theorem publishObserver_no_operatorPublish (k : MsgConstants) (node : Operator) :
    ∀ x ∈ (publishObserver k node).effects, x.isOperatorPublish = false := by
  intro x hx
  rw [publishObserver_eq] at hx
  obtain ⟨es, g, c⟩ := node
  cases es <;> simp at hx
  split_ifs at hx <;> simp at hx <;> subst hx <;> rfl

/-- `publishOperator` publishes nothing on the observer topic. -/
theorem publishOperator_no_observerPublish (k : MsgConstants) (node : Operator) :
    ∀ x ∈ (publishOperator k node).effects, x.isObserverPublish = false := by
  intro x hx
  rw [publishOperator_eq] at hx
  obtain ⟨es, g, c⟩ := node
  cases g <;> cases c <;> simp at hx
  split_ifs at hx <;> simp at hx <;> subst hx <;> rfl

/-- An operator mode published by any callback is one of the three labels. -/
theorem dispatch_operatorPublish_modes (k : MsgConstants) (e : Event) (node : Operator)
    (mode : Nat) (h : Effect.operatorPublish mode ∈ (dispatch k e node).effects) :
    mode = k.Operator_DRIVER ∨ mode = k.Operator_AUTONOMOUS ∨ mode = k.Operator_OBSERVER := by
  cases e with
  | externalSelect message =>
    simp [dispatch, onExternalSelect, bind, Exec.bind, getNode, setNode] at h
  | gateMode message => simp [dispatch, onGateMode, bind, Exec.bind, getNode, setNode] at h
  | vehicleControlMode message =>
    simp [dispatch, onVehicleControlMode, bind, Exec.bind, getNode, setNode] at h
  | timer =>
    simp only [dispatch, onTimer_eq, List.mem_append] at h
    rcases h with h | h
    · exact publishOperator_modes k node mode h
    · have := publishObserver_no_operatorPublish k node _ h
      simp [Effect.isOperatorPublish] at this
  | setOperatorRequest m cli =>
    simp only [dispatch, bind] at h
    rw [(Exec.bind_discard _ node).2] at h
    have := (Effect.isCommand_not_publish _ (setOperator_effects_isCommand k cli m node _ h)).1
    simp [Effect.isOperatorPublish] at this
  | setObserverRequest m cli =>
    simp only [dispatch, bind] at h
    rw [(Exec.bind_discard _ node).2] at h
    have := (Effect.isCommand_not_publish _ (setObserver_effects_isCommand k cli m node _ h)).1
    simp [Effect.isOperatorPublish] at this

/-- An operator mode published anywhere in a run is one of the three labels. -/
theorem spin_operatorPublish_modes (k : MsgConstants) (evs : List Event) :
    ∀ (node : Operator) (mode : Nat),
      Effect.operatorPublish mode ∈ (spin k evs node).effects →
      mode = k.Operator_DRIVER ∨ mode = k.Operator_AUTONOMOUS ∨
        mode = k.Operator_OBSERVER := by
  induction evs with
  | nil => intro node mode h; simp [spin, pure] at h
  | cons e es ih =>
    intro node mode h
    simp only [spin, bind] at h
    rcases Exec.mem_bind_effects _ _ node _ h with h1 | ⟨_, _, h1⟩
    · exact dispatch_operatorPublish_modes k e node mode h1
    · exact ih _ mode h1

/-- When a run returns, its first callback returned and the rest of the run
returned from the state that callback left. -/
theorem spin_cons_of_value (k : MsgConstants) (e : Event) (es : List Event)
    (node : Operator) (h : (spin k (e :: es) node).value = some ()) :
    (spin k (e :: es) node).node = (spin k es (dispatch k e node).node).node ∧
    (spin k es (dispatch k e node).node).value = some () := by
  simp only [spin, bind, Exec.bind] at h ⊢
  cases hv : (dispatch k e node).value with
  | none => simp [hv] at h
  | some v => simp [hv] at h ⊢; exact h

/-- After a run that returned, each slot holds the last message the run
delivered for it, or what it held before when the run delivered none. -/
theorem spin_node_last (k : MsgConstants) (evs : List Event) :
    ∀ node : Operator, (spin k evs node).value = some () →
      (spin k evs node).node =
        ⟨(lastReceived evs).external_select_.or node.external_select_,
         (lastReceived evs).gate_mode_.or node.gate_mode_,
         (lastReceived evs).vehicle_control_mode_.or node.vehicle_control_mode_⟩ := by
  induction evs with
  | nil => intro node _; simp [spin, pure, lastReceived]
  | cons e es ih =>
    intro node h
    obtain ⟨h1, h2⟩ := spin_cons_of_value k e es node h
    rw [h1, ih _ h2, dispatch_node]
    cases e <;>
      simp only [lastReceived, List.filterMap_cons, Event.externalSelectMessage,
        Event.gateModeMessage, Event.vehicleControlModeMessage, List.getLast?_cons]
    · cases (List.filterMap Event.externalSelectMessage es).getLast? <;> simp
    · cases (List.filterMap Event.gateModeMessage es).getLast? <;> simp
    · cases (List.filterMap Event.vehicleControlModeMessage es).getLast? <;> simp

/-- The operator modes a timer expiry publishes are those of `publishOperator`. -/
theorem onTimer_operatorPublishes (k : MsgConstants) (node : Operator) :
    (onTimer k node).effects.filter Effect.isOperatorPublish
      = (publishOperator k node).effects.filter Effect.isOperatorPublish := by
  have h : (publishObserver k node).effects.filter Effect.isOperatorPublish = [] := by
    rw [List.filter_eq_nil_iff]
    intro x hx
    simp [publishObserver_no_operatorPublish k node x hx]
  rw [onTimer_eq]
  simp only [List.filter_append, h, List.append_nil]

/-- The observer modes a timer expiry publishes are those of `publishObserver`. -/
theorem onTimer_observerPublishes (k : MsgConstants) (node : Operator) :
    (onTimer k node).effects.filter Effect.isObserverPublish
      = (publishObserver k node).effects.filter Effect.isObserverPublish := by
  have h : (publishOperator k node).effects.filter Effect.isObserverPublish = [] := by
    rw [List.filter_eq_nil_iff]
    intro x hx
    simp [publishOperator_no_observerPublish k node x hx]
  rw [onTimer_eq]
  simp only [List.filter_append, h, List.nil_append]

/-- `publishOperator` issues at most one effect, `publishObserver` as well. -/
theorem publishers_effects_length (k : MsgConstants) (node : Operator) :
    (publishOperator k node).effects.length ≤ 1 ∧
    (publishObserver k node).effects.length ≤ 1 := by
  rw [publishOperator_eq, publishObserver_eq]
  obtain ⟨es, g, c⟩ := node
  constructor
  · cases g <;> cases c <;> simp
    split_ifs <;> simp
  · cases es <;> simp
    split_ifs <;> simp

/-! ## Theorems -/

/-- C1: when both the control-mode slot and the gate-mode slot are filled and
the control mode is MANUAL, `publishOperator` publishes exactly one operator
message, with mode DRIVER, whatever the gate-mode value is; it returns and
leaves the cache as it was. -/
theorem publishOperator_manual_publishes_driver (k : MsgConstants)
    (es : Option ExternalCommandSelectorMode) (gate_data : Nat) :
    publishOperator k ⟨es, some ⟨gate_data⟩, some ⟨k.ControlModeReport_MANUAL⟩⟩
      = ⟨some (), ⟨es, some ⟨gate_data⟩, some ⟨k.ControlModeReport_MANUAL⟩⟩,
          [Effect.operatorPublish k.Operator_DRIVER]⟩ := by
  simp [publishOperator, getNode, emit, bind, Exec.bind]

/-- C2: when both slots are filled and the control mode is anything other than
MANUAL, `publishOperator` publishes exactly one operator message: AUTONOMOUS when
the gate mode is AUTO and OBSERVER when the gate mode is EXTERNAL. -/
theorem publishOperator_non_manual_follows_gate (k : MsgConstants)
    (hk : SwitchLabelsDistinct k) (es : Option ExternalCommandSelectorMode)
    (control : ControlModeReport) (hc : control.mode ≠ k.ControlModeReport_MANUAL) :
    publishOperator k ⟨es, some ⟨k.GateMode_AUTO⟩, some control⟩
        = ⟨some (), ⟨es, some ⟨k.GateMode_AUTO⟩, some control⟩,
            [Effect.operatorPublish k.Operator_AUTONOMOUS]⟩ ∧
    publishOperator k ⟨es, some ⟨k.GateMode_EXTERNAL⟩, some control⟩
        = ⟨some (), ⟨es, some ⟨k.GateMode_EXTERNAL⟩, some control⟩,
            [Effect.operatorPublish k.Operator_OBSERVER]⟩ := by
  have hne : k.GateMode_EXTERNAL ≠ k.GateMode_AUTO := fun h => hk.2.2.2.2.1 h.symm
  constructor <;> simp [publishOperator, getNode, emit, bind, Exec.bind, hc, hne]

/-- C2 at the sample labels, with an autonomous control-mode report. -/
theorem publishOperator_non_manual_follows_gate_witness :
    publishOperator sampleConstants ⟨none, some ⟨0⟩, some ⟨1⟩⟩
        = ⟨some (), ⟨none, some ⟨0⟩, some ⟨1⟩⟩, [Effect.operatorPublish 2]⟩ ∧
    publishOperator sampleConstants ⟨none, some ⟨1⟩, some ⟨1⟩⟩
        = ⟨some (), ⟨none, some ⟨1⟩, some ⟨1⟩⟩, [Effect.operatorPublish 3]⟩ :=
  publishOperator_non_manual_follows_gate sampleConstants (by decide) none ⟨1⟩ (by decide)

/-- C3: start from the node as constructed (all slots empty) and let any finite
sequence of events happen. If the sequence holds no control-mode update, or no
gate-mode update, then nothing in the whole run publishes an operator mode, and
neither does a timer expiry that comes right after it; if it holds no selector
update, the same holds for observer-mode publishes. A tick that occurs before the
required updates is the last event of such a sequence. -/
theorem no_publish_before_first_signals (k : MsgConstants) (evs : List Event) :
    (((∀ e ∈ evs, e.isVehicleControlMode = false) ∨ (∀ e ∈ evs, e.isGateMode = false)) →
      (∀ x ∈ (spin k evs Operator.init).effects, x.isOperatorPublish = false) ∧
      (∀ x ∈ (onTimer k (spin k evs Operator.init).node).effects,
        x.isOperatorPublish = false)) ∧
    ((∀ e ∈ evs, e.isExternalSelect = false) →
      (∀ x ∈ (spin k evs Operator.init).effects, x.isObserverPublish = false) ∧
      (∀ x ∈ (onTimer k (spin k evs Operator.init).node).effects,
        x.isObserverPublish = false)) := by
  have hs := spin_node_slots k evs Operator.init
  constructor
  · intro h
    constructor
    · apply spin_no_operatorPublish k evs Operator.init
      rcases h with h | h
      · exact Or.inl ⟨rfl, h⟩
      · exact Or.inr ⟨rfl, h⟩
    · apply dispatch_no_operatorPublish k Event.timer
      rcases h with h | h
      · exact Or.inl (hs.1 rfl h)
      · exact Or.inr (hs.2.1 rfl h)
  · intro h
    exact ⟨spin_no_observerPublish k evs Operator.init rfl h,
      dispatch_no_observerPublish k Event.timer _ (hs.2.2 rfl h)⟩

/-- C3 on a run in which a MANUAL control-mode report, two ticks and a
set-operator request arrive, but no gate-mode and no selector update. -/
theorem no_publish_before_first_signals_witness :
    ((∀ x ∈ (spin sampleConstants
          [Event.vehicleControlMode ⟨4⟩, Event.timer,
           Event.setOperatorRequest 2 (fun _ => ⟨response_success "", some ⟨true, "ok"⟩⟩),
           Event.timer] Operator.init).effects, x.isOperatorPublish = false) ∧
      (∀ x ∈ (onTimer sampleConstants (spin sampleConstants
          [Event.vehicleControlMode ⟨4⟩, Event.timer,
           Event.setOperatorRequest 2 (fun _ => ⟨response_success "", some ⟨true, "ok"⟩⟩),
           Event.timer] Operator.init).node).effects, x.isOperatorPublish = false)) ∧
    ((∀ x ∈ (spin sampleConstants
          [Event.vehicleControlMode ⟨4⟩, Event.timer,
           Event.setOperatorRequest 2 (fun _ => ⟨response_success "", some ⟨true, "ok"⟩⟩),
           Event.timer] Operator.init).effects, x.isObserverPublish = false) ∧
      (∀ x ∈ (onTimer sampleConstants (spin sampleConstants
          [Event.vehicleControlMode ⟨4⟩, Event.timer,
           Event.setOperatorRequest 2 (fun _ => ⟨response_success "", some ⟨true, "ok"⟩⟩),
           Event.timer] Operator.init).node).effects, x.isObserverPublish = false)) :=
  ⟨(no_publish_before_first_signals sampleConstants _).1
      (Or.inr (by simp [Event.isGateMode])),
   (no_publish_before_first_signals sampleConstants _).2
      (by simp [Event.isExternalSelect])⟩

/-- C4: a set-operator request whose mode is none of DRIVER, AUTONOMOUS, OBSERVER,
and a set-observer request whose mode is neither LOCAL nor REMOTE, issue no effect
at all (so no gate-mode publish, engage publish, operation-mode request or
external-select call), leave the node as it was and answer with the error status
whose message is "Invalid parameter.". -/
theorem invalid_request_is_rejected_without_commands (k : MsgConstants)
    (cli : ServiceClient) (node : Operator) :
    (∀ request_mode : Nat, request_mode ≠ k.Operator_DRIVER →
        request_mode ≠ k.Operator_AUTONOMOUS → request_mode ≠ k.Operator_OBSERVER →
        setOperator k cli request_mode node =
          ⟨some ⟨false, "Invalid parameter."⟩, node, []⟩) ∧
    (∀ request_mode : Nat, request_mode ≠ k.Observer_LOCAL →
        request_mode ≠ k.Observer_REMOTE →
        setObserver k cli request_mode node =
          ⟨some ⟨false, "Invalid parameter."⟩, node, []⟩) :=
  ⟨fun m h1 h2 h3 => setOperator_default k cli m node h1 h2 h3,
   fun m h1 h2 => setObserver_default k cli m node h1 h2⟩

/-- C4 at the sample labels: mode 0 is not a label of either request enum. -/
theorem invalid_request_is_rejected_without_commands_witness :
    setOperator sampleConstants (fun _ => ⟨response_success "", some ⟨true, "ok"⟩⟩) 0
        Operator.init = ⟨some ⟨false, "Invalid parameter."⟩, Operator.init, []⟩ ∧
    setObserver sampleConstants (fun _ => ⟨response_success "", some ⟨true, "ok"⟩⟩) 0
        Operator.init = ⟨some ⟨false, "Invalid parameter."⟩, Operator.init, []⟩ :=
  ⟨(invalid_request_is_rejected_without_commands sampleConstants _ Operator.init).1 0
      (by decide) (by decide) (by decide),
   (invalid_request_is_rejected_without_commands sampleConstants _ Operator.init).2 0
      (by decide) (by decide)⟩

/-- C5: whatever the operation-mode service does, `setOperator(DRIVER)` issues
exactly the engage publish with `engage = false` followed by the operation-mode
request for MANUAL_DIRECT, and `response->status` is what that request yields
(the value `setVehicleOperationMode(MANUAL_DIRECT)` returns): the transport status
itself when the call failed, otherwise the fixed success or error status chosen by
the service's `success` flag. The engage publish has no result that could enter
the response. -/
theorem setOperator_driver_disengages_then_requests_manual (k : MsgConstants)
    (cli : ServiceClient) (node : Operator) :
    (setOperator k cli k.Operator_DRIVER node).effects =
        [Effect.engagePublish false,
         Effect.operationModeRequest k.OperationMode_MANUAL_DIRECT] ∧
    (setOperator k cli k.Operator_DRIVER node).value =
        (setVehicleOperationMode cli k.OperationMode_MANUAL_DIRECT node).value ∧
    (setOperator k cli k.Operator_DRIVER node).value =
        (if is_success (cli k.OperationMode_MANUAL_DIRECT).status = false then
          some (cli k.OperationMode_MANUAL_DIRECT).status
        else match (cli k.OperationMode_MANUAL_DIRECT).resp with
          | none => none
          | some resp =>
            if resp.success then some ⟨true, "set OperationMode succeeded"⟩
            else some ⟨false, "set OperationMode failed."⟩) := by
  rw [setOperator_driver]
  exact ⟨rfl, rfl, setVehicleOperationMode_value cli _ node⟩

/-- C6: whatever the operation-mode service does, `setOperator(AUTONOMOUS)` issues
exactly the gate-mode publish AUTO, then the engage publish with `engage = true`,
then the operation-mode request for AUTONOMOUS. -/
theorem setOperator_autonomous_command_sequence (k : MsgConstants)
    (hk : SwitchLabelsDistinct k) (cli : ServiceClient) (node : Operator) :
    (setOperator k cli k.Operator_AUTONOMOUS node).effects =
        [Effect.gateModePublish k.GateMode_AUTO, Effect.engagePublish true,
         Effect.operationModeRequest k.OperationMode_AUTONOMOUS] := by
  rw [setOperator_autonomous k (fun h => hk.1 h.symm)]

/-- C6 at the sample labels, with an operation-mode service that refuses. -/
theorem setOperator_autonomous_command_sequence_witness :
    (setOperator sampleConstants (fun _ => ⟨response_success "", some ⟨false, "no"⟩⟩) 2
        Operator.init).effects =
      [Effect.gateModePublish 0, Effect.engagePublish true,
       Effect.operationModeRequest 2] :=
  setOperator_autonomous_command_sequence sampleConstants (by decide) _ Operator.init

/-- C7: whatever the operation-mode service does, `setOperator(OBSERVER)` issues
exactly the gate-mode publish EXTERNAL, then the engage publish with
`engage = true`, then the operation-mode request for REMOTE_OPERATOR, and
`response->status` is what that request yields: the transport status itself when
the call failed, otherwise the fixed success or error status chosen by the
service's `success` flag. -/
theorem setOperator_observer_command_sequence (k : MsgConstants)
    (hk : SwitchLabelsDistinct k) (cli : ServiceClient) (node : Operator) :
    (setOperator k cli k.Operator_OBSERVER node).effects =
        [Effect.gateModePublish k.GateMode_EXTERNAL, Effect.engagePublish true,
         Effect.operationModeRequest k.OperationMode_REMOTE_OPERATOR] ∧
    (setOperator k cli k.Operator_OBSERVER node).value =
        (setVehicleOperationMode cli k.OperationMode_REMOTE_OPERATOR node).value ∧
    (setOperator k cli k.Operator_OBSERVER node).value =
        (if is_success (cli k.OperationMode_REMOTE_OPERATOR).status = false then
          some (cli k.OperationMode_REMOTE_OPERATOR).status
        else match (cli k.OperationMode_REMOTE_OPERATOR).resp with
          | none => none
          | some resp =>
            if resp.success then some ⟨true, "set OperationMode succeeded"⟩
            else some ⟨false, "set OperationMode failed."⟩) := by
  rw [setOperator_observer k (fun h => hk.2.1 h.symm) (fun h => hk.2.2.1 h.symm)]
  exact ⟨rfl, rfl, setVehicleOperationMode_value cli _ node⟩

/-- C7 at the sample labels, with an operation-mode service that refuses. -/
theorem setOperator_observer_command_sequence_witness :
    (setOperator sampleConstants (fun _ => ⟨response_success "", some ⟨false, "no"⟩⟩) 3
        Operator.init).effects =
      [Effect.gateModePublish 1, Effect.engagePublish true,
       Effect.operationModeRequest 4] ∧
    (setOperator sampleConstants (fun _ => ⟨response_success "", some ⟨false, "no"⟩⟩) 3
        Operator.init).value = some ⟨false, "set OperationMode failed."⟩ :=
  ⟨(setOperator_observer_command_sequence sampleConstants (by decide) _ Operator.init).1,
   (setOperator_observer_command_sequence sampleConstants (by decide) _
      Operator.init).2.2.trans rfl⟩

/-- C8: for the request modes LOCAL and REMOTE, when the external-select call is
delivered (the transport status is a success) and the service answers with flag
`b` and message `s`, `setObserver` makes exactly one external-select call, carrying
the selector mode of the same name, leaves the node as it was, and returns the
status with success flag `b` and message `s`. -/
theorem setObserver_returns_downstream_answer (k : MsgConstants)
    (hk : SwitchLabelsDistinct k) (cli : ServiceClient) (node : Operator)
    (b : Bool) (s : String) :
    (is_success (cli k.ExternalCommandSelectorMode_LOCAL).status = true →
      (cli k.ExternalCommandSelectorMode_LOCAL).resp = some ⟨b, s⟩ →
      setObserver k cli k.Observer_LOCAL node =
        ⟨some ⟨b, s⟩, node,
          [Effect.externalSelectCall k.ExternalCommandSelectorMode_LOCAL]⟩) ∧
    (is_success (cli k.ExternalCommandSelectorMode_REMOTE).status = true →
      (cli k.ExternalCommandSelectorMode_REMOTE).resp = some ⟨b, s⟩ →
      setObserver k cli k.Observer_REMOTE node =
        ⟨some ⟨b, s⟩, node,
          [Effect.externalSelectCall k.ExternalCommandSelectorMode_REMOTE]⟩) := by
  constructor
  · intro h1 h2
    rw [setObserver_local, setExternalSelect_value, h1, h2]
    cases b <;> simp [response_success, response_error]
  · intro h1 h2
    rw [setObserver_remote k (fun h => hk.2.2.2.1 h.symm), setExternalSelect_value, h1, h2]
    cases b <;> simp [response_success, response_error]

/-- C8 at the sample labels: the service refuses with the message "busy", and
both `setObserver(LOCAL)` and `setObserver(REMOTE)` answer with an error status
whose message is "busy". -/
theorem setObserver_returns_downstream_answer_witness :
    setObserver sampleConstants (fun _ => ⟨response_success "", some ⟨false, "busy"⟩⟩) 1
        Operator.init =
      ⟨some ⟨false, "busy"⟩, Operator.init, [Effect.externalSelectCall 1]⟩ ∧
    setObserver sampleConstants (fun _ => ⟨response_success "", some ⟨false, "busy"⟩⟩) 2
        Operator.init =
      ⟨some ⟨false, "busy"⟩, Operator.init, [Effect.externalSelectCall 2]⟩ :=
  ⟨(setObserver_returns_downstream_answer sampleConstants (by decide) _ Operator.init
      false "busy").1 rfl rfl,
   (setObserver_returns_downstream_answer sampleConstants (by decide) _ Operator.init
      false "busy").2 rfl rfl⟩

/-- C9: for a valid set-operator request, the effects end with the one
operation-mode request, nothing before it is a service call, and when that call
fails in transport (its status is not a success) the response is exactly that
status; likewise for a valid set-observer request and its external-select call,
which is its only effect. -/
theorem transport_failure_is_returned_without_retry (k : MsgConstants)
    (cli : ServiceClient) (node : Operator) :
    (∀ request_mode : Nat,
      request_mode = k.Operator_DRIVER ∨ request_mode = k.Operator_AUTONOMOUS ∨
        request_mode = k.Operator_OBSERVER →
      ∃ before mode,
        (setOperator k cli request_mode node).effects
          = before ++ [Effect.operationModeRequest mode] ∧
        (∀ x ∈ before, x.isCall = false) ∧
        (is_success (cli mode).status = false →
          (setOperator k cli request_mode node).value = some (cli mode).status)) ∧
    (∀ request_mode : Nat,
      request_mode = k.Observer_LOCAL ∨ request_mode = k.Observer_REMOTE →
      ∃ data,
        (setObserver k cli request_mode node).effects = [Effect.externalSelectCall data] ∧
        (is_success (cli data).status = false →
          (setObserver k cli request_mode node).value = some (cli data).status)) := by
  constructor
  · intro m hm
    by_cases h1 : m = k.Operator_DRIVER
    · subst h1
      refine ⟨[Effect.engagePublish false], k.OperationMode_MANUAL_DIRECT, ?_, ?_, ?_⟩
      · rw [setOperator_driver]; rfl
      · simp [Effect.isCall]
      · intro hf; rw [setOperator_driver]; simp [setVehicleOperationMode_value, hf]
    · by_cases h2 : m = k.Operator_AUTONOMOUS
      · subst h2
        refine ⟨[Effect.gateModePublish k.GateMode_AUTO, Effect.engagePublish true],
          k.OperationMode_AUTONOMOUS, ?_, ?_, ?_⟩
        · rw [setOperator_autonomous k h1]; rfl
        · simp [Effect.isCall]
        · intro hf; rw [setOperator_autonomous k h1]; simp [setVehicleOperationMode_value, hf]
      · have h3 : m = k.Operator_OBSERVER := by tauto
        subst h3
        refine ⟨[Effect.gateModePublish k.GateMode_EXTERNAL, Effect.engagePublish true],
          k.OperationMode_REMOTE_OPERATOR, ?_, ?_, ?_⟩
        · rw [setOperator_observer k h1 h2]; rfl
        · simp [Effect.isCall]
        · intro hf
          rw [setOperator_observer k h1 h2]; simp [setVehicleOperationMode_value, hf]
  · intro m hm
    by_cases h1 : m = k.Observer_LOCAL
    · subst h1
      refine ⟨k.ExternalCommandSelectorMode_LOCAL, ?_, ?_⟩
      · rw [setObserver_local]
      · intro hf; rw [setObserver_local]; simp [setExternalSelect_value, hf]
    · have h2 : m = k.Observer_REMOTE := by tauto
      subst h2
      refine ⟨k.ExternalCommandSelectorMode_REMOTE, ?_, ?_⟩
      · rw [setObserver_remote k h1]
      · intro hf; rw [setObserver_remote k h1]; simp [setExternalSelect_value, hf]

/-- C9 at the sample labels, with services that time out: `setOperator(AUTONOMOUS)`
and `setObserver(LOCAL)` answer with the transport status itself. -/
theorem transport_failure_is_returned_without_retry_witness :
    (setOperator sampleConstants
        (fun _ => ⟨response_error "Internal service has timed out.", none⟩) 2
        Operator.init).value = some ⟨false, "Internal service has timed out."⟩ ∧
    (setObserver sampleConstants
        (fun _ => ⟨response_error "Internal service has timed out.", none⟩) 1
        Operator.init).value = some ⟨false, "Internal service has timed out."⟩ := by
  constructor
  · obtain ⟨_, _, _, _, h⟩ := (transport_failure_is_returned_without_retry sampleConstants
      (fun _ => ⟨response_error "Internal service has timed out.", none⟩) Operator.init).1 2
      (by decide)
    exact h rfl
  · obtain ⟨_, _, h⟩ := (transport_failure_is_returned_without_retry sampleConstants
      (fun _ => ⟨response_error "Internal service has timed out.", none⟩) Operator.init).2 1
      (by decide)
    exact h rfl

/-- C10: with the selector slot filled, `publishObserver` publishes exactly one
observer message LOCAL when the selector is LOCAL and exactly one REMOTE when it
is REMOTE; for every other selector value it publishes nothing and logs
"Unknown observer.". Hence, for every node state, an observer mode that is
published is LOCAL or REMOTE. -/
theorem publishObserver_follows_selector (k : MsgConstants)
    (hk : SwitchLabelsDistinct k) (gate : Option GateMode)
    (control : Option ControlModeReport) :
    publishObserver k ⟨some ⟨k.ExternalCommandSelectorMode_LOCAL⟩, gate, control⟩
      = ⟨some (), ⟨some ⟨k.ExternalCommandSelectorMode_LOCAL⟩, gate, control⟩,
          [Effect.observerPublish k.Observer_LOCAL]⟩ ∧
    publishObserver k ⟨some ⟨k.ExternalCommandSelectorMode_REMOTE⟩, gate, control⟩
      = ⟨some (), ⟨some ⟨k.ExternalCommandSelectorMode_REMOTE⟩, gate, control⟩,
          [Effect.observerPublish k.Observer_REMOTE]⟩ ∧
    (∀ data : Nat, data ≠ k.ExternalCommandSelectorMode_LOCAL →
      data ≠ k.ExternalCommandSelectorMode_REMOTE →
      publishObserver k ⟨some ⟨data⟩, gate, control⟩
        = ⟨some (), ⟨some ⟨data⟩, gate, control⟩, [Effect.logError "Unknown observer."]⟩) ∧
    (∀ (node : Operator) (mode : Nat),
      Effect.observerPublish mode ∈ (publishObserver k node).effects →
      mode = k.Observer_LOCAL ∨ mode = k.Observer_REMOTE) := by
  have hne : k.ExternalCommandSelectorMode_REMOTE ≠ k.ExternalCommandSelectorMode_LOCAL :=
    fun h => hk.2.2.2.2.2 h.symm
  refine ⟨?_, ?_, ?_, ?_⟩
  · rw [publishObserver_eq]; simp
  · rw [publishObserver_eq]; simp [hne]
  · intro data h1 h2; rw [publishObserver_eq]; simp [h1, h2]
  · intro node mode hmem
    rw [publishObserver_eq] at hmem
    obtain ⟨es, g, c⟩ := node
    cases es <;> simp at hmem
    split_ifs at hmem <;> simp at hmem
    · exact Or.inl hmem
    · exact Or.inr hmem

/-- C10 at the sample labels, with selector value 0 as the unknown one. -/
theorem publishObserver_follows_selector_witness :
    publishObserver sampleConstants ⟨some ⟨1⟩, none, none⟩
      = ⟨some (), ⟨some ⟨1⟩, none, none⟩, [Effect.observerPublish 1]⟩ ∧
    publishObserver sampleConstants ⟨some ⟨2⟩, none, none⟩
      = ⟨some (), ⟨some ⟨2⟩, none, none⟩, [Effect.observerPublish 2]⟩ ∧
    publishObserver sampleConstants ⟨some ⟨0⟩, none, none⟩
      = ⟨some (), ⟨some ⟨0⟩, none, none⟩, [Effect.logError "Unknown observer."]⟩ :=
  ⟨(publishObserver_follows_selector sampleConstants (by decide) none none).1,
   (publishObserver_follows_selector sampleConstants (by decide) none none).2.1,
   (publishObserver_follows_selector sampleConstants (by decide) none none).2.2.1 0
      (by decide) (by decide)⟩

/-- C11: with both slots filled, a control mode other than MANUAL and a gate mode
that is neither AUTO nor EXTERNAL, `publishOperator` publishes nothing and logs
"Unknown operator.". Consequently an operator mode published by `publishOperator`
in any node state, and an operator mode published anywhere in any run of the
node, is DRIVER, AUTONOMOUS or OBSERVER. -/
theorem publishOperator_unknown_gate_is_logged (k : MsgConstants)
    (es : Option ExternalCommandSelectorMode) (control : ControlModeReport)
    (gate_data : Nat) :
    (control.mode ≠ k.ControlModeReport_MANUAL → gate_data ≠ k.GateMode_AUTO →
      gate_data ≠ k.GateMode_EXTERNAL →
      publishOperator k ⟨es, some ⟨gate_data⟩, some control⟩
        = ⟨some (), ⟨es, some ⟨gate_data⟩, some control⟩,
            [Effect.logError "Unknown operator."]⟩) ∧
    (∀ (node : Operator) (mode : Nat),
      Effect.operatorPublish mode ∈ (publishOperator k node).effects →
      mode = k.Operator_DRIVER ∨ mode = k.Operator_AUTONOMOUS ∨
        mode = k.Operator_OBSERVER) ∧
    (∀ (evs : List Event) (node : Operator) (mode : Nat),
      Effect.operatorPublish mode ∈ (spin k evs node).effects →
      mode = k.Operator_DRIVER ∨ mode = k.Operator_AUTONOMOUS ∨
        mode = k.Operator_OBSERVER) := by
  refine ⟨fun h1 h2 h3 => ?_, publishOperator_modes k, spin_operatorPublish_modes k⟩
  rw [publishOperator_eq]; simp [h1, h2, h3]

/-- C11 at the sample labels: an autonomous control-mode report with gate mode 7. -/
theorem publishOperator_unknown_gate_is_logged_witness :
    publishOperator sampleConstants ⟨none, some ⟨7⟩, some ⟨1⟩⟩
      = ⟨some (), ⟨none, some ⟨7⟩, some ⟨1⟩⟩, [Effect.logError "Unknown operator."]⟩ :=
  (publishOperator_unknown_gate_is_logged sampleConstants none ⟨1⟩ 7).1
    (by decide) (by decide) (by decide)

/-- C12: for every node state, every request mode (valid or not) and every
behaviour of the internal service, `setOperator` and `setObserver` leave the three
slots as they were and publish nothing on the operator or observer topic; a timer
expiry after the handler does exactly what a timer expiry before it does, and the
handler does the same whether or not a timer expiry came first. -/
theorem request_handlers_leave_cache_and_mode_topics (k : MsgConstants)
    (cli : ServiceClient) (request_mode : Nat) (node : Operator) :
    ((setOperator k cli request_mode node).node = node ∧
      (∀ x ∈ (setOperator k cli request_mode node).effects,
        x.isOperatorPublish = false ∧ x.isObserverPublish = false) ∧
      onTimer k (setOperator k cli request_mode node).node = onTimer k node ∧
      setOperator k cli request_mode (onTimer k node).node
        = setOperator k cli request_mode node) ∧
    ((setObserver k cli request_mode node).node = node ∧
      (∀ x ∈ (setObserver k cli request_mode node).effects,
        x.isOperatorPublish = false ∧ x.isObserverPublish = false) ∧
      onTimer k (setObserver k cli request_mode node).node = onTimer k node ∧
      setObserver k cli request_mode (onTimer k node).node
        = setObserver k cli request_mode node) := by
  refine ⟨⟨setOperator_node k cli request_mode node, fun x hx => ?_, ?_, ?_⟩,
    ⟨setObserver_node k cli request_mode node, fun x hx => ?_, ?_, ?_⟩⟩
  · exact Effect.isCommand_not_publish x
      (setOperator_effects_isCommand k cli request_mode node x hx)
  · rw [setOperator_node]
  · rw [onTimer_eq]
  · exact Effect.isCommand_not_publish x
      (setObserver_effects_isCommand k cli request_mode node x hx)
  · rw [setObserver_node]
  · rw [onTimer_eq]

/-- C12 at the sample labels: `setOperator(AUTONOMOUS)` on a filled cache, with a
service that refuses; the gate-mode publish it issues is not a publish on the
operator topic, and the tick after it equals the tick before it. -/
theorem request_handlers_leave_cache_and_mode_topics_witness :
    (setOperator sampleConstants (fun _ => ⟨response_success "", some ⟨false, "no"⟩⟩) 2
        ⟨some ⟨1⟩, some ⟨1⟩, some ⟨4⟩⟩).node = ⟨some ⟨1⟩, some ⟨1⟩, some ⟨4⟩⟩ ∧
    (Effect.gateModePublish 0).isOperatorPublish = false ∧
    onTimer sampleConstants
        (setOperator sampleConstants (fun _ => ⟨response_success "", some ⟨false, "no"⟩⟩) 2
          ⟨some ⟨1⟩, some ⟨1⟩, some ⟨4⟩⟩).node
      = onTimer sampleConstants ⟨some ⟨1⟩, some ⟨1⟩, some ⟨4⟩⟩ :=
  ⟨(request_handlers_leave_cache_and_mode_topics sampleConstants
      (fun _ => ⟨response_success "", some ⟨false, "no"⟩⟩) 2
      ⟨some ⟨1⟩, some ⟨1⟩, some ⟨4⟩⟩).1.1,
   ((request_handlers_leave_cache_and_mode_topics sampleConstants
      (fun _ => ⟨response_success "", some ⟨false, "no"⟩⟩) 2
      ⟨some ⟨1⟩, some ⟨1⟩, some ⟨4⟩⟩).1.2.1 (Effect.gateModePublish 0) (by decide)).1,
   (request_handlers_leave_cache_and_mode_topics sampleConstants
      (fun _ => ⟨response_success "", some ⟨false, "no"⟩⟩) 2
      ⟨some ⟨1⟩, some ⟨1⟩, some ⟨4⟩⟩).1.2.2.1⟩

/-- C13: for `setOperator(AUTONOMOUS)` and `setOperator(OBSERVER)` the effect list
is the same for every behaviour of the operation-mode service. When the request
fails in transport, or is delivered and answered with `success = false`, the
handler reports that failure, and its effects are still the gate-mode publish and
the engage publish followed by the request, with nothing after the request. -/
theorem setOperator_does_not_roll_back (k : MsgConstants) (hk : SwitchLabelsDistinct k)
    (cli : ServiceClient) (node : Operator) :
    (∀ cli2 : ServiceClient,
      (setOperator k cli k.Operator_AUTONOMOUS node).effects
        = (setOperator k cli2 k.Operator_AUTONOMOUS node).effects ∧
      (setOperator k cli k.Operator_OBSERVER node).effects
        = (setOperator k cli2 k.Operator_OBSERVER node).effects) ∧
    (is_success (cli k.OperationMode_AUTONOMOUS).status = false →
      setOperator k cli k.Operator_AUTONOMOUS node =
        ⟨some (cli k.OperationMode_AUTONOMOUS).status, node,
          [Effect.gateModePublish k.GateMode_AUTO, Effect.engagePublish true,
           Effect.operationModeRequest k.OperationMode_AUTONOMOUS]⟩) ∧
    (∀ s : String, is_success (cli k.OperationMode_AUTONOMOUS).status = true →
      (cli k.OperationMode_AUTONOMOUS).resp = some ⟨false, s⟩ →
      setOperator k cli k.Operator_AUTONOMOUS node =
        ⟨some ⟨false, "set OperationMode failed."⟩, node,
          [Effect.gateModePublish k.GateMode_AUTO, Effect.engagePublish true,
           Effect.operationModeRequest k.OperationMode_AUTONOMOUS]⟩) ∧
    (is_success (cli k.OperationMode_REMOTE_OPERATOR).status = false →
      setOperator k cli k.Operator_OBSERVER node =
        ⟨some (cli k.OperationMode_REMOTE_OPERATOR).status, node,
          [Effect.gateModePublish k.GateMode_EXTERNAL, Effect.engagePublish true,
           Effect.operationModeRequest k.OperationMode_REMOTE_OPERATOR]⟩) ∧
    (∀ s : String, is_success (cli k.OperationMode_REMOTE_OPERATOR).status = true →
      (cli k.OperationMode_REMOTE_OPERATOR).resp = some ⟨false, s⟩ →
      setOperator k cli k.Operator_OBSERVER node =
        ⟨some ⟨false, "set OperationMode failed."⟩, node,
          [Effect.gateModePublish k.GateMode_EXTERNAL, Effect.engagePublish true,
           Effect.operationModeRequest k.OperationMode_REMOTE_OPERATOR]⟩) := by
  have ha : k.Operator_AUTONOMOUS ≠ k.Operator_DRIVER := fun h => hk.1 h.symm
  have ho1 : k.Operator_OBSERVER ≠ k.Operator_DRIVER := fun h => hk.2.1 h.symm
  have ho2 : k.Operator_OBSERVER ≠ k.Operator_AUTONOMOUS := fun h => hk.2.2.1 h.symm
  refine ⟨fun cli2 => ?_, fun hf => ?_, fun s h1 h2 => ?_, fun hf => ?_, fun s h1 h2 => ?_⟩
  · simp only [setOperator_autonomous k ha, setOperator_observer k ho1 ho2, and_self]
  · rw [setOperator_autonomous k ha, setVehicleOperationMode_value]; simp [hf]
  · rw [setOperator_autonomous k ha, setVehicleOperationMode_value]
    simp [h1, h2, response_error]
  · rw [setOperator_observer k ho1 ho2, setVehicleOperationMode_value]; simp [hf]
  · rw [setOperator_observer k ho1 ho2, setVehicleOperationMode_value]
    simp [h1, h2, response_error]

/-- C13 at the sample labels: `setOperator(AUTONOMOUS)` with a service that times
out, and `setOperator(OBSERVER)` with a service that refuses. -/
theorem setOperator_does_not_roll_back_witness :
    setOperator sampleConstants
        (fun _ => ⟨response_error "Internal service has timed out.", none⟩) 2
        Operator.init =
      ⟨some ⟨false, "Internal service has timed out."⟩, Operator.init,
        [Effect.gateModePublish 0, Effect.engagePublish true,
         Effect.operationModeRequest 2]⟩ ∧
    setOperator sampleConstants (fun _ => ⟨response_success "", some ⟨false, "no"⟩⟩) 3
        Operator.init =
      ⟨some ⟨false, "set OperationMode failed."⟩, Operator.init,
        [Effect.gateModePublish 1, Effect.engagePublish true,
         Effect.operationModeRequest 4]⟩ :=
  ⟨(setOperator_does_not_roll_back sampleConstants (by decide) _ Operator.init).2.1 rfl,
   (setOperator_does_not_roll_back sampleConstants (by decide) _
      Operator.init).2.2.2.2 "no" rfl rfl⟩

/-- C14: for each valid set-operator request, when the operation-mode call is
delivered (the transport status is a success) and the service answers with flag
`b` and message `s`, the response has success flag `b` and the fixed message
"set OperationMode succeeded" or "set OperationMode failed." chosen by `b` alone.
Hence two runs whose services are both delivered and agree on `b` give the same
response whatever their messages are; `setObserver` on the contrary returns
different responses for different downstream messages. -/
theorem setOperator_response_ignores_downstream_message (k : MsgConstants)
    (hk : SwitchLabelsDistinct k) (node : Operator) (b : Bool) :
    (∀ (cli : ServiceClient) (s : String),
      is_success (cli k.OperationMode_MANUAL_DIRECT).status = true →
      (cli k.OperationMode_MANUAL_DIRECT).resp = some ⟨b, s⟩ →
      (setOperator k cli k.Operator_DRIVER node).value =
        some ⟨b, if b then "set OperationMode succeeded"
          else "set OperationMode failed."⟩) ∧
    (∀ (cli : ServiceClient) (s : String),
      is_success (cli k.OperationMode_AUTONOMOUS).status = true →
      (cli k.OperationMode_AUTONOMOUS).resp = some ⟨b, s⟩ →
      (setOperator k cli k.Operator_AUTONOMOUS node).value =
        some ⟨b, if b then "set OperationMode succeeded"
          else "set OperationMode failed."⟩) ∧
    (∀ (cli : ServiceClient) (s : String),
      is_success (cli k.OperationMode_REMOTE_OPERATOR).status = true →
      (cli k.OperationMode_REMOTE_OPERATOR).resp = some ⟨b, s⟩ →
      (setOperator k cli k.Operator_OBSERVER node).value =
        some ⟨b, if b then "set OperationMode succeeded"
          else "set OperationMode failed."⟩) ∧
    (∀ (request_mode : Nat) (cli1 cli2 : ServiceClient),
      (∀ mode, is_success (cli1 mode).status = true ∧ is_success (cli2 mode).status = true ∧
        ∃ s1 s2, (cli1 mode).resp = some ⟨b, s1⟩ ∧ (cli2 mode).resp = some ⟨b, s2⟩) →
      setOperator k cli1 request_mode node = setOperator k cli2 request_mode node) ∧
    (∀ s1 s2 : String, s1 ≠ s2 →
      (setObserver k (fun _ => ⟨response_success "", some ⟨b, s1⟩⟩) k.Observer_LOCAL
          node).value ≠
        (setObserver k (fun _ => ⟨response_success "", some ⟨b, s2⟩⟩) k.Observer_LOCAL
          node).value) := by
  have ha : k.Operator_AUTONOMOUS ≠ k.Operator_DRIVER := fun h => hk.1 h.symm
  have ho1 : k.Operator_OBSERVER ≠ k.Operator_DRIVER := fun h => hk.2.1 h.symm
  have ho2 : k.Operator_OBSERVER ≠ k.Operator_AUTONOMOUS := fun h => hk.2.2.1 h.symm
  have key : ∀ (cli : ServiceClient) (mode : Nat) (s : String),
      is_success (cli mode).status = true → (cli mode).resp = some ⟨b, s⟩ →
      (setVehicleOperationMode cli mode node).value =
        some ⟨b, if b then "set OperationMode succeeded"
          else "set OperationMode failed."⟩ := by
    intro cli mode s h1 h2
    rw [setVehicleOperationMode_value, h1, h2]
    cases b <;> simp [response_success, response_error]
  refine ⟨fun cli s h1 h2 => ?_, fun cli s h1 h2 => ?_, fun cli s h1 h2 => ?_,
    fun m cli1 cli2 h => ?_, fun s1 s2 hs => ?_⟩
  · rw [setOperator_driver]; exact key cli _ s h1 h2
  · rw [setOperator_autonomous k ha]; exact key cli _ s h1 h2
  · rw [setOperator_observer k ho1 ho2]; exact key cli _ s h1 h2
  · have hv : ∀ mode, (setVehicleOperationMode cli1 mode node).value
        = (setVehicleOperationMode cli2 mode node).value := by
      intro mode
      obtain ⟨h1, h2, s1, s2, h3, h4⟩ := h mode
      rw [key cli1 mode s1 h1 h3, key cli2 mode s2 h2 h4]
    by_cases h1 : m = k.Operator_DRIVER
    · subst h1; rw [setOperator_driver, setOperator_driver, hv]
    · by_cases h2 : m = k.Operator_AUTONOMOUS
      · subst h2; rw [setOperator_autonomous k h1, setOperator_autonomous k h1, hv]
      · by_cases h3 : m = k.Operator_OBSERVER
        · subst h3; rw [setOperator_observer k h1 h2, setOperator_observer k h1 h2, hv]
        · rw [setOperator_default k cli1 m node h1 h2 h3,
            setOperator_default k cli2 m node h1 h2 h3]
  · rw [setObserver_local, setObserver_local, setExternalSelect_value,
      setExternalSelect_value]
    cases b <;> simp [is_success, response_success, response_error, hs]

/-- C14 at the sample labels: `setOperator(AUTONOMOUS)` with a service that refuses
with the message "busy" answers "set OperationMode failed.", and so does the run
whose service refuses with the message "door open". -/
theorem setOperator_response_ignores_downstream_message_witness :
    (setOperator sampleConstants (fun _ => ⟨response_success "", some ⟨false, "busy"⟩⟩) 2
        Operator.init).value = some ⟨false, "set OperationMode failed."⟩ ∧
    setOperator sampleConstants (fun _ => ⟨response_success "", some ⟨false, "busy"⟩⟩) 2
        Operator.init =
      setOperator sampleConstants
        (fun _ => ⟨response_success "", some ⟨false, "door open"⟩⟩) 2 Operator.init ∧
    (setObserver sampleConstants (fun _ => ⟨response_success "", some ⟨false, "busy"⟩⟩) 1
        Operator.init).value ≠
      (setObserver sampleConstants
        (fun _ => ⟨response_success "", some ⟨false, "door open"⟩⟩) 1 Operator.init).value :=
  ⟨(setOperator_response_ignores_downstream_message sampleConstants (by decide)
      Operator.init false).2.1 _ "busy" rfl rfl,
   (setOperator_response_ignores_downstream_message sampleConstants (by decide)
      Operator.init false).2.2.2.1 2 _ _ (fun _ => ⟨rfl, rfl, "busy", "door open", rfl, rfl⟩),
   (setOperator_response_ignores_downstream_message sampleConstants (by decide)
      Operator.init false).2.2.2.2 "busy" "door open" (by decide)⟩

/-- C15: each listener stores the received message in its own slot and leaves the
other two slots as they were, without any effect. After a run that returned, from
the node as constructed, every slot holds the last message the run delivered for
it and is empty when the run delivered none. Updates of different slots commute,
and delivering the same message twice gives the same state as delivering it
once. -/
theorem listeners_overwrite_their_own_slot (k : MsgConstants) (node : Operator)
    (s : ExternalCommandSelectorMode) (g : GateMode) (c : ControlModeReport) :
    (onExternalSelect s node
        = ⟨some (), ⟨some s, node.gate_mode_, node.vehicle_control_mode_⟩, []⟩ ∧
      onGateMode g node
        = ⟨some (), ⟨node.external_select_, some g, node.vehicle_control_mode_⟩, []⟩ ∧
      onVehicleControlMode c node
        = ⟨some (), ⟨node.external_select_, node.gate_mode_, some c⟩, []⟩) ∧
    (∀ evs : List Event, (spin k evs Operator.init).value = some () →
      (spin k evs Operator.init).node = lastReceived evs) ∧
    ((onGateMode g (onExternalSelect s node).node).node
        = (onExternalSelect s (onGateMode g node).node).node ∧
      (onVehicleControlMode c (onExternalSelect s node).node).node
        = (onExternalSelect s (onVehicleControlMode c node).node).node ∧
      (onVehicleControlMode c (onGateMode g node).node).node
        = (onGateMode g (onVehicleControlMode c node).node).node) ∧
    ((onExternalSelect s (onExternalSelect s node).node).node
        = (onExternalSelect s node).node ∧
      (onGateMode g (onGateMode g node).node).node = (onGateMode g node).node ∧
      (onVehicleControlMode c (onVehicleControlMode c node).node).node
        = (onVehicleControlMode c node).node) := by
  refine ⟨⟨rfl, rfl, rfl⟩, fun evs h => ?_, ⟨rfl, rfl, rfl⟩, ⟨rfl, rfl, rfl⟩⟩
  rw [spin_node_last k evs _ h]
  simp [Operator.init]

/-- C15 on a run with two gate-mode updates, a control-mode update, a tick and a
rejected request: the gate-mode slot holds the second update. -/
theorem listeners_overwrite_their_own_slot_witness :
    (spin sampleConstants
        [Event.gateMode ⟨0⟩, Event.vehicleControlMode ⟨4⟩, Event.timer,
         Event.setObserverRequest 9 (fun _ => ⟨response_success "", none⟩),
         Event.gateMode ⟨1⟩] Operator.init).node = ⟨none, some ⟨1⟩, some ⟨4⟩⟩ :=
  ((listeners_overwrite_their_own_slot sampleConstants Operator.init ⟨0⟩ ⟨0⟩ ⟨0⟩).2.1
    [Event.gateMode ⟨0⟩, Event.vehicleControlMode ⟨4⟩, Event.timer,
     Event.setObserverRequest 9 (fun _ => ⟨response_success "", none⟩),
     Event.gateMode ⟨1⟩] rfl).trans rfl

/-- C16, as stated, fails: with the control-mode slot holding MANUAL and the
gate-mode slot still empty, a timer expiry does nothing at all, so it is not the
case that it publishes DRIVER exactly when the cached control mode is MANUAL. -/
theorem tick_with_manual_control_and_empty_gate_counterexample :
    (onTimer sampleConstants
        ⟨none, none, some ⟨sampleConstants.ControlModeReport_MANUAL⟩⟩).effects = [] ∧
    ¬ (Effect.operatorPublish sampleConstants.Operator_DRIVER ∈
          (onTimer sampleConstants
            ⟨none, none, some ⟨sampleConstants.ControlModeReport_MANUAL⟩⟩).effects ↔
        (Operator.mk none none
            (some ⟨sampleConstants.ControlModeReport_MANUAL⟩)).vehicle_control_mode_
          = some ⟨sampleConstants.ControlModeReport_MANUAL⟩) := by
  decide

/-- C16, amended: the reconcilers invert the command mapping of the handlers.
If the cached gate mode is the one `setOperator(AUTONOMOUS)` publishes and the
cached control mode is a value other than MANUAL, the operator mode a timer expiry
publishes is AUTONOMOUS; likewise for OBSERVER. If the cached selector mode is
the one `setObserver(LOCAL)` sends to external-select, the observer mode a timer
expiry publishes is LOCAL; likewise for REMOTE. `setOperator(DRIVER)` publishes no
gate mode, and a timer expiry publishes DRIVER iff the cached control mode is
MANUAL and the gate-mode slot is filled. -/
theorem reconcilers_invert_request_mapping (k : MsgConstants)
    (hk : SwitchLabelsDistinct k) (cli : ServiceClient) (node0 : Operator) :
    (∀ (data : Nat) (es : Option ExternalCommandSelectorMode) (control : ControlModeReport),
      Effect.gateModePublish data ∈ (setOperator k cli k.Operator_AUTONOMOUS node0).effects →
      control.mode ≠ k.ControlModeReport_MANUAL →
      (onTimer k ⟨es, some ⟨data⟩, some control⟩).effects.filter Effect.isOperatorPublish
        = [Effect.operatorPublish k.Operator_AUTONOMOUS]) ∧
    (∀ (data : Nat) (es : Option ExternalCommandSelectorMode) (control : ControlModeReport),
      Effect.gateModePublish data ∈ (setOperator k cli k.Operator_OBSERVER node0).effects →
      control.mode ≠ k.ControlModeReport_MANUAL →
      (onTimer k ⟨es, some ⟨data⟩, some control⟩).effects.filter Effect.isOperatorPublish
        = [Effect.operatorPublish k.Operator_OBSERVER]) ∧
    (∀ (data : Nat) (gate : Option GateMode) (control : Option ControlModeReport),
      Effect.externalSelectCall data ∈ (setObserver k cli k.Observer_LOCAL node0).effects →
      (onTimer k ⟨some ⟨data⟩, gate, control⟩).effects.filter Effect.isObserverPublish
        = [Effect.observerPublish k.Observer_LOCAL]) ∧
    (∀ (data : Nat) (gate : Option GateMode) (control : Option ControlModeReport),
      Effect.externalSelectCall data ∈ (setObserver k cli k.Observer_REMOTE node0).effects →
      (onTimer k ⟨some ⟨data⟩, gate, control⟩).effects.filter Effect.isObserverPublish
        = [Effect.observerPublish k.Observer_REMOTE]) ∧
    (∀ data : Nat,
      Effect.gateModePublish data ∉ (setOperator k cli k.Operator_DRIVER node0).effects) ∧
    (∀ node : Operator,
      Effect.operatorPublish k.Operator_DRIVER ∈ (onTimer k node).effects ↔
        (∃ control, node.vehicle_control_mode_ = some control ∧
          control.mode = k.ControlModeReport_MANUAL) ∧ node.gate_mode_ ≠ none) := by
  obtain ⟨h1, h2, h3, h4, h5, h6⟩ := hk
  refine ⟨fun data es control hmem hc => ?_, fun data es control hmem hc => ?_,
    fun data gate control hmem => ?_, fun data gate control hmem => ?_,
    fun data hmem => ?_, fun node => ?_⟩
  · rw [setOperator_autonomous k (fun h => h1 h.symm)] at hmem
    simp at hmem
    subst hmem
    rw [onTimer_operatorPublishes, publishOperator_eq]
    simp [hc, Effect.isOperatorPublish]
  · rw [setOperator_observer k (fun h => h2 h.symm) (fun h => h3 h.symm)] at hmem
    simp at hmem
    subst hmem
    rw [onTimer_operatorPublishes, publishOperator_eq]
    have h5b : k.GateMode_EXTERNAL ≠ k.GateMode_AUTO := fun h => h5 h.symm
    simp [hc, Effect.isOperatorPublish, h5b]
  · rw [setObserver_local] at hmem
    simp at hmem
    subst hmem
    rw [onTimer_observerPublishes, publishObserver_eq]
    simp [Effect.isObserverPublish]
  · rw [setObserver_remote k (fun h => h4 h.symm)] at hmem
    simp at hmem
    subst hmem
    rw [onTimer_observerPublishes, publishObserver_eq]
    have h6b : k.ExternalCommandSelectorMode_REMOTE ≠ k.ExternalCommandSelectorMode_LOCAL :=
      fun h => h6 h.symm
    simp [Effect.isObserverPublish, h6b]
  · rw [setOperator_driver] at hmem
    simp at hmem
  · rw [onTimer_eq, publishOperator_eq, publishObserver_eq]
    obtain ⟨es, g, c⟩ := node
    cases es <;> cases g <;> cases c <;> simp
    all_goals (split_ifs <;> simp_all)

/-- C16, amended, at the sample labels: after `setOperator(OBSERVER)` published
gate mode 1 and `setObserver(REMOTE)` selected source 2, a cache holding these
values and an autonomous control-mode report makes the tick publish OBSERVER and
REMOTE. -/
theorem reconcilers_invert_request_mapping_witness :
    (onTimer sampleConstants ⟨none, some ⟨1⟩, some ⟨1⟩⟩).effects.filter
        Effect.isOperatorPublish = [Effect.operatorPublish 3] ∧
    (onTimer sampleConstants ⟨some ⟨2⟩, none, none⟩).effects.filter
        Effect.isObserverPublish = [Effect.observerPublish 2] :=
  ⟨(reconcilers_invert_request_mapping sampleConstants (by decide)
      (fun _ => ⟨response_success "", some ⟨true, "ok"⟩⟩) Operator.init).2.1 1 none ⟨1⟩
      (by decide) (by decide),
   (reconcilers_invert_request_mapping sampleConstants (by decide)
      (fun _ => ⟨response_success "", some ⟨true, "ok"⟩⟩) Operator.init).2.2.2.1 2 none none
      (by decide)⟩

/-- C17: a timer expiry returns and leaves the cache as it was. Its effects are
those of `publishOperator` followed by those of `publishObserver`; the first part
holds no observer publish and the second no operator publish, and the tick
publishes at most one operator message and at most one observer message. The
operator messages it publishes are the same for any two caches that agree on the
control-mode and gate-mode slots, and the observer messages are the same for any
two caches that agree on the selector slot. -/
theorem onTimer_publishes_each_mode_at_most_once (k : MsgConstants) (node : Operator) :
    (onTimer k node).value = some () ∧
    (onTimer k node).node = node ∧
    (onTimer k node).effects
      = (publishOperator k node).effects ++ (publishObserver k node).effects ∧
    (∀ x ∈ (publishOperator k node).effects, x.isObserverPublish = false) ∧
    (∀ x ∈ (publishObserver k node).effects, x.isOperatorPublish = false) ∧
    ((onTimer k node).effects.filter Effect.isOperatorPublish).length ≤ 1 ∧
    ((onTimer k node).effects.filter Effect.isObserverPublish).length ≤ 1 ∧
    (∀ node2 : Operator, node2.vehicle_control_mode_ = node.vehicle_control_mode_ →
      node2.gate_mode_ = node.gate_mode_ →
      (onTimer k node2).effects.filter Effect.isOperatorPublish
        = (onTimer k node).effects.filter Effect.isOperatorPublish) ∧
    (∀ node2 : Operator, node2.external_select_ = node.external_select_ →
      (onTimer k node2).effects.filter Effect.isObserverPublish
        = (onTimer k node).effects.filter Effect.isObserverPublish) := by
  have hlen := publishers_effects_length k node
  refine ⟨by rw [onTimer_eq], by rw [onTimer_eq], by rw [onTimer_eq],
    publishOperator_no_observerPublish k node, publishObserver_no_operatorPublish k node,
    ?_, ?_, fun node2 hc hg => ?_, fun node2 hs => ?_⟩
  · rw [onTimer_operatorPublishes]
    exact le_trans (List.length_filter_le _ _) hlen.1
  · rw [onTimer_observerPublishes]
    exact le_trans (List.length_filter_le _ _) hlen.2
  · rw [onTimer_operatorPublishes, onTimer_operatorPublishes, publishOperator_eq,
      publishOperator_eq]
    simp only [hc, hg]
  · rw [onTimer_observerPublishes, onTimer_observerPublishes, publishObserver_eq,
      publishObserver_eq]
    simp only [hs]

/-- C17 at the sample labels: the tick publishes REMOTE both when the operator
publish is skipped (empty slots) and when it ends in the error log (gate mode 7);
and it publishes DRIVER whether the selector slot is empty or holds the unknown
value 0. -/
theorem onTimer_publishes_each_mode_at_most_once_witness :
    (onTimer sampleConstants ⟨some ⟨2⟩, some ⟨7⟩, some ⟨1⟩⟩).effects.filter
        Effect.isObserverPublish
      = (onTimer sampleConstants ⟨some ⟨2⟩, none, none⟩).effects.filter
        Effect.isObserverPublish ∧
    (onTimer sampleConstants ⟨some ⟨0⟩, some ⟨0⟩, some ⟨4⟩⟩).effects.filter
        Effect.isOperatorPublish
      = (onTimer sampleConstants ⟨none, some ⟨0⟩, some ⟨4⟩⟩).effects.filter
        Effect.isOperatorPublish :=
  ⟨(onTimer_publishes_each_mode_at_most_once sampleConstants
      ⟨some ⟨2⟩, none, none⟩).2.2.2.2.2.2.2.2 ⟨some ⟨2⟩, some ⟨7⟩, some ⟨1⟩⟩ rfl,
   (onTimer_publishes_each_mode_at_most_once sampleConstants
      ⟨none, some ⟨0⟩, some ⟨4⟩⟩).2.2.2.2.2.2.2.1 ⟨some ⟨0⟩, some ⟨0⟩, some ⟨4⟩⟩ rfl rfl⟩

end internal_api
